import Mathlib

/-!
Verification of the capture-session lifecycle and media-upload pipeline of
the playz-camera-api repository (src/session.py, src/util.py).

Modelling conventions (shallow embedding):
- Python strings are modelled as `List Char`; `str.startswith` is
  `List.isPrefixOf`, `s[6:]` is `List.drop 6`, `str.lower()` is
  `List.map Char.toLower`, string concatenation is `List.append`.
- Timestamps (`datetime.now`) are abstract `Nat` clock values supplied at
  the suspension points where the code reads the clock.
- File objects (`TemporaryFile`, streams) are opaque handles (`Nat`).
- The camera (`PiCamera`) is abstracted to its frame rate; its start/stop
  recording calls have no further observable effect on the session state.
- Exceptions are an explicit `PyErr` error type threaded through `Except`.
- Python attribute lookup is modelled explicitly where the source reads a
  name an object does not define: on the `datetime` class (bound by
  `from datetime import datetime` at src/session.py line 2, so the module
  attributes `timezone`/`timedelta`/`datetime` read at lines 54, 82 and
  139 do not exist), on `MediaContainer` (`item.timestamp` at
  src/session.py line 244; the field is `captured_at`), and on
  `MediaUploader` (`self._uploader.put` at src/session.py line 247; only
  `put_items` is defined). Each failing lookup raises AttributeError.
- Lifecycle hooks (`Event`): `Session.on_stopping` / `Session.on_disposed`
  are modelled as emitted `Ev` trace entries; the manager-side handlers
  (`_cancel_watchdog`, `_empty_session`) are applied at the corresponding
  points of `SessionManager.destroy`.
-/

set_option maxRecDepth 4000

/-- Error taxonomy: exception classes raised by the code under src/.
The spec's error taxonomy (section 7) names `SessionAlreadyExists` and
`SessionNotExists` (classes in src/session.py) as
`SessionAlreadyExistsError` / `SessionNotExistsError`; the constructors
here keep the class names of the code. `AttributeError` is Python's
builtin, raised when attribute lookup on an object fails. -/
inductive PyErr where
  | SessionAlreadyExists
  | SessionNotExists
  | SessionInvalidError
  | PiCameraAlreadyRecording
  | PiCameraNotRecording
  | AttributeError
  deriving DecidableEq, Repr

/-- Lifecycle hook firings (src/session.py `Event` instances
`on_stopping` / `on_disposed`), recorded as a trace. -/
inductive Ev where
  | stopping
  | disposed
  deriving DecidableEq, Repr

/-- MediaContainer (src/util.py lines 71-75): one captured artifact.
`file` is the opaque handle of the payload stream. -/
structure MediaContainer where
  file : Nat
  mimetype : List Char
  captured_at : Nat
  framerate : Option Nat := none
  deriving DecidableEq, Repr

/-- Session (src/session.py lines 32-174). `_cam` is the camera handle,
abstracted to its frame rate; `_stream_ctr` allocates fresh handles for
the `TemporaryFile()` streams created per captured image. -/
structure Session where
  _in_progress : Bool
  _disposed : Bool
  _cam : Nat
  _uid : Nat
  _sid : String
  _raw_stream : Nat
  _stream_ctr : Nat
  _items : List MediaContainer
  _started_at : Option Nat
  _video_mime_type : Option (List Char)
  _image_mime_type : Option (List Char)
  deriving DecidableEq, Repr

/-- Attributes of the name `datetime` as bound in src/session.py: line 2
reads `from datetime import datetime`, so the name is the datetime CLASS,
not the module. The class provides constructors, class methods and
instance members, but not the module attributes `timezone`, `timedelta`
or `datetime` that session.py reads at lines 54, 82 and 139. -/
def datetimeCls.attrNames : List String :=
  ["now", "today", "utcnow", "fromtimestamp", "utcfromtimestamp",
   "fromordinal", "fromisoformat", "fromisocalendar", "combine", "strptime",
   "min", "max", "resolution",
   "year", "month", "day", "hour", "minute", "second", "microsecond",
   "tzinfo", "fold",
   "date", "time", "timetz", "replace", "astimezone", "utcoffset", "dst",
   "tzname", "timetuple", "utctimetuple", "toordinal", "timestamp",
   "weekday", "isoweekday", "isocalendar", "isoformat", "ctime", "strftime"]

/-- Python attribute lookup on the `datetime` class as imported by
src/session.py: a name outside `attrNames` raises AttributeError. -/
def datetimeCls.hasattr (name : String) : Bool :=
  datetimeCls.attrNames.contains name

/-- The field assignments of Session.__init__ (src/session.py lines
35-51): camera, uid, sid; fresh raw stream; empty item list; both status
flags false. -/
def Session.fields (camera uid : Nat) (sid : String) : Session :=
  { _in_progress := false
    _disposed := false
    _cam := camera
    _uid := uid
    _sid := sid
    _raw_stream := 0
    _stream_ctr := 1
    _items := []
    _started_at := none
    _video_mime_type := none
    _image_mime_type := none }

/-- Session.__init__ (src/session.py lines 33-54): after the field
assignments, line 54 evaluates
`datetime.timezone(datetime.timedelta(seconds=-timezone))`. With the
line-2 import, `datetime` is the class and has neither a `timezone` nor
a `timedelta` attribute, so every construction raises AttributeError and
no Session object ever completes construction in the staged source. -/
def Session.new (camera uid : Nat) (sid : String) : Except PyErr Session :=
  let s := Session.fields camera uid sid
  if datetimeCls.hasattr "timezone" then Except.ok s
  else Except.error PyErr.AttributeError

/-- Property Session.uid (src/session.py lines 61-63). -/
def Session.uid (s : Session) : Nat := s._uid

/-- Property Session.sid (src/session.py lines 65-67). -/
def Session.sid (s : Session) : String := s._sid

/-- Session.start (src/session.py lines 69-94). The guards at lines
74-79 fire first. Line 81 then assigns `_video_mime_type`, and line 82
evaluates `datetime.datetime.now(self._tz)`: the `datetime` class has no
attribute `datetime`, so start raises AttributeError there — before
`start_recording` and before `_in_progress` is set, so no session ever
becomes Recording in the staged source. (The in-place assignment of
`_video_mime_type` on the object persists in Python, but the object is
unobservable: construction itself already raises, see Session.new.)
`now` is the clock value line 82 would read. -/
def Session.start (s : Session) (_image_capture_interval : Nat)
    (image_format video_format : List Char) (now : Nat) : Except PyErr Session :=
  if s._disposed then Except.error PyErr.SessionInvalidError
  else if s._in_progress then Except.error PyErr.PiCameraAlreadyRecording
  else if datetimeCls.hasattr "datetime" then
    Except.ok { s with
      _video_mime_type := some (( "video/").data ++ video_format.map Char.toUpper)
      _started_at := some now
      _image_mime_type := some (( "image/").data ++ image_format)
      _in_progress := true }
  else Except.error PyErr.AttributeError

/-- One iteration of Session._capture_image_on_event (src/session.py
lines 135-144): capture into a fresh stream (line 138, external), then
line 139 evaluates `datetime.datetime.now(self._tz)` — the `datetime`
class has no attribute `datetime`, so the iteration raises
AttributeError before the MediaContainer append at line 142; only
CancelledError is caught (line 145), so the error kills the capture
task and no image item is ever appended in the staged source. `now` is
the clock value line 139 would read. -/
def Session.captureImage (s : Session) (now : Nat) : Except PyErr Session :=
  if datetimeCls.hasattr "datetime" then
    Except.ok { s with
      _items := s._items ++ [{ file := s._stream_ctr
                               mimetype := s._image_mime_type.getD []
                               captured_at := now }]
      _stream_ctr := s._stream_ctr + 1 }
  else Except.error PyErr.AttributeError

/-- The video MediaContainer appended by Session.stop (src/session.py
lines 118-126): raw stream, video mime type, start timestamp, camera
frame rate. -/
def Session.videoItem (s : Session) : MediaContainer :=
  { file := s._raw_stream
    mimetype := s._video_mime_type.getD []
    captured_at := s._started_at.getD 0
    framerate := some s._cam }

/-- The branch of Session.dispose (src/session.py lines 170-173) taken
when the session is no longer in progress: set the terminal flag and fire
the on_disposed hook. Session.stop reaches dispose in exactly this state,
so the mutual recursion of the source unfolds into this helper. -/
def Session.disposeCore (s : Session) : Session × List Ev :=
  if s._disposed then (s, [])
  else ({ s with _disposed := true }, [Ev.disposed])

/-- Session.stop (src/session.py lines 96-131): guard checks, fire
on_stopping, stop recording, join the capture task, append the video
item, clear `_in_progress`, dispose, return the item list. -/
def Session.stop (s : Session) : Except PyErr (Session × List MediaContainer × List Ev) :=
  if s._disposed then Except.error PyErr.SessionInvalidError
  else if !s._in_progress then Except.error PyErr.PiCameraNotRecording
  else
    let s1 := { s with _items := s._items ++ [s.videoItem] }
    let s2 := { s1 with _in_progress := false }
    let r := s2.disposeCore
    Except.ok (r.1, r.1._items, Ev.stopping :: r.2)

/-- Session.dispose (src/session.py lines 164-174): no-op when already
disposed; delegates to stop when in progress; otherwise the terminal
branch. The `.error` arm of the match is unreachable: stop only raises
when `_disposed` or not `_in_progress`, both excluded on that path. -/
def Session.dispose (s : Session) : Session × List Ev :=
  if s._disposed then (s, [])
  else if s._in_progress then
    match s.stop with
    | Except.ok (s1, _, evs) => (s1, evs)
    | Except.error _ => (s, [])
  else s.disposeCore

/-- The file-extension inference of SessionManager.destroy
(src/session.py lines 229-238), paired with whether the warning at
lines 240-242 fires (`if not ext: log.warning`). -/
def destroyExtStep (mimetype : List Char) : List Char × Bool :=
  let ext :=
    if ( "image/").data.isPrefixOf mimetype then
      let subtype := (mimetype.drop 6).map Char.toLower
      if subtype = ( "jpeg").data then ( ".jpg").data
      else if subtype = ( "png").data then ( ".png").data
      else []
    else if ( "video/").data.isPrefixOf mimetype then ( ".mp4").data
    else []
  (ext, ext.isEmpty)

/-- The file-extension inference of MediaUploader._worker
(src/util.py lines 116-124), identical text to the one in destroy. -/
def workerExtStep (mimetype : List Char) : List Char :=
  if ( "image/").data.isPrefixOf mimetype then
    let subtype := (mimetype.drop 6).map Char.toLower
    if subtype = ( "jpeg").data then ( ".jpg").data
    else if subtype = ( "png").data then ( ".png").data
    else []
  else if ( "video/").data.isPrefixOf mimetype then ( ".mp4").data
  else []

/-- Names of the attributes the MediaUploader class defines
(src/util.py lines 78-154: __init__ instance attributes and the four
methods). Python attribute lookup on a MediaUploader instance succeeds
exactly for these names. -/
def MediaUploader.attrNames : List String :=
  ["_upload_endpoint", "_module_id", "_token", "_tasks", "_q",
   "put_items", "dispose", "make_filename", "_worker"]

/-- Python attribute lookup on a MediaUploader instance: a name outside
`attrNames` raises AttributeError at the call site. -/
def MediaUploader.hasattr (name : String) : Bool :=
  MediaUploader.attrNames.contains name

/-- Rendering of `captured_at.strftime("%Y%m%d%H%M%S")` for the abstract
`Nat` timestamps of this embedding: an injective textual rendering of the
clock value (no claim inspects the digits themselves). -/
def strftime14 (t : Nat) : List Char := (Nat.repr t).data

/-- MediaUploader.make_filename (src/util.py lines 103-104). -/
def MediaUploader.make_filename (module_id : List Char) (captured_at : Nat)
    (ext : List Char) : List Char :=
  module_id ++ '-' :: (strftime14 captured_at ++ ext)

/-- pathlib `upload_path / filename` (src/util.py line 133). -/
def pathJoin (a b : List Char) : List Char := a ++ '/' :: b

/-- SessionManager (src/session.py lines 177-184). `_uploader` is the
MediaUploader abstracted to the FIFO contents of its queue `_q` (the only
uploader state destroy touches); `_path_fmt` is the configured template
`fmt.format(uid=..., sid=..., timestamp=..., ext=...)` abstracted to a
function of exactly those four parameters; `_task_watchdog` records
whether a watchdog task is live. The lock `_lock` needs no representation
here: `destroy` is modelled as one caller's run (the watchdog/caller
interleaving is the separate race model below). -/
structure SessionManager where
  __instance : Option Session
  _timeout : Nat
  _task_watchdog : Bool
  _uploader : List (List Char × MediaContainer)
  _path_fmt : Nat → String → Nat → List Char → List Char

/-- SessionManager.create (src/session.py lines 208-215): fail if a
session is held; otherwise line 211 evaluates `Session(*args, **kwargs)`
— whose __init__ raises AttributeError at session.py:54 (see
Session.new) — so the assignment to `__instance` never executes, the
hooks are never attached, the watchdog is never armed (lines 212-214
are unreachable) and the exception propagates with the manager
unchanged. The ok branch is what lines 211-215 would do were
construction to complete. -/
def SessionManager.create (m : SessionManager) (camera uid : Nat) (sid : String) :
    Except PyErr (SessionManager × Session) :=
  match m.__instance with
  | some _ => Except.error PyErr.SessionAlreadyExists
  | none =>
    match Session.new camera uid sid with
    | Except.error e => Except.error e
    | Except.ok s =>
      Except.ok ({ m with __instance := some s, _task_watchdog := true }, s)

/-- Names of the fields of MediaContainer (src/util.py lines 71-75).
The destroy loop's template call at src/session.py line 244 reads
`item.timestamp`, which is not among them (the field is named
`captured_at`). -/
def MediaContainer.attrNames : List String :=
  ["file", "mimetype", "captured_at", "framerate"]

/-- Python attribute lookup on a MediaContainer: a name outside
`attrNames` raises AttributeError. -/
def MediaContainer.hasattr (name : String) : Bool :=
  MediaContainer.attrNames.contains name

/-- The per-item upload loop of SessionManager.destroy (src/session.py
lines 228-247): infer the extension (warning modelled in
`destroyExtStep`), then at line 244 evaluate
`fmt.format(uid=session.uid, sid=session.sid, timestamp=item.timestamp,
ext=ext)` — the argument `item.timestamp` is an attribute lookup on
MediaContainer, whose field is named `captured_at`, so the lookup raises
AttributeError right there, before the path append (line 245) and before
the `self._uploader.put` lookup (line 247), which — were the timestamp
read to succeed — would itself raise AttributeError, MediaUploader
defining no `put` (only put_items). The then-branches are what the loop
would do were both lookups to succeed, with `put` enqueuing the pair
(spec 4.3 `put_nowait` semantics). -/
def SessionManager.destroyUploadLoop (fmt : Nat → String → Nat → List Char → List Char)
    (uid : Nat) (sid : String) (paths : List (List Char))
    (q : List (List Char × MediaContainer)) :
    List MediaContainer → Except PyErr (List (List Char) × List (List Char × MediaContainer))
  | [] => Except.ok (paths, q)
  | item :: rest =>
    let ext := (destroyExtStep item.mimetype).1
    if MediaContainer.hasattr "timestamp" then
      let upload_path := fmt uid sid item.captured_at ext
      if MediaUploader.hasattr "put"
      then SessionManager.destroyUploadLoop fmt uid sid (paths ++ [upload_path])
        (q ++ [(upload_path, item)]) rest
      else Except.error PyErr.AttributeError
    else Except.error PyErr.AttributeError

/-- SessionManager.destroy (src/session.py lines 217-249): under the
lock, raise SessionNotExists if no session is held, stop the held
session (its on_stopping hook runs `_cancel_watchdog`, its on_disposed
hook runs `_empty_session`, reflected in the updated manager), then if
`upload` run the per-item loop and return `(session, path_list)`. -/
def SessionManager.destroy (m : SessionManager) (upload : Bool) :
    Except PyErr (SessionManager × Session × List (List Char)) :=
  match m.__instance with
  | none => Except.error PyErr.SessionNotExists
  | some session =>
    match session.stop with
    | Except.error e => Except.error e
    | Except.ok (s1, items, _evs) =>
      let m1 := { m with __instance := none, _task_watchdog := false }
      if upload then
        match SessionManager.destroyUploadLoop m._path_fmt session.uid session.sid
            [] m._uploader items with
        | Except.error e => Except.error e
        | Except.ok (paths, q1) =>
          Except.ok ({ m1 with _uploader := q1 }, s1, paths)
      else Except.ok (m1, s1, [])

/-- Environment of a MediaUploader worker: the outcome of the external
transcoding subprocess (src/util.py lines 39-60; `none` models a raised
exception / failed conversion for a given source stream) and whether the
HTTP POST (src/util.py line 148) raises for a given destination path. -/
structure WorkerEnv where
  transcode : Nat → Option Nat
  postFails : List Char → Bool

/-- Observable actions of one MediaUploader._worker iteration. -/
inductive WAct where
  | transcode (src : Nat) (framerate : Option Nat)
  | warnExt
  | post (upload_path_full : List Char) (payload : Nat) (mimetype : List Char)
      (filename : List Char)
  | task_done
  deriving DecidableEq, Repr

/-- Tail of a MediaUploader._worker iteration after the extension /
conversion branch (src/util.py lines 128-152): warn on empty extension,
build the filename and full path, POST the (possibly converted) payload,
then `task_done`. The Bool result is true when the iteration raised
(a failed POST), in which case `task_done` is never reached. -/
def MediaUploader.finishItem (env : WorkerEnv) (module_id upload_path : List Char)
    (media : MediaContainer) (ext : List Char) (file : Nat) (acts : List WAct) :
    List WAct × Bool :=
  let acts1 := acts ++ (if ext.isEmpty then [WAct.warnExt] else [])
  let filename := MediaUploader.make_filename module_id media.captured_at ext
  let upload_path_full := '/' :: pathJoin upload_path filename
  let acts2 := acts1 ++ [WAct.post upload_path_full file media.mimetype filename]
  if env.postFails upload_path_full then (acts2, true)
  else (acts2 ++ [WAct.task_done], false)

/-- One iteration of MediaUploader._worker (src/util.py lines 109-152)
on a dequeued `(upload_path, media)` pair: infer the extension; for a
video item invoke the transcoding subprocess (a failure there raises,
aborting the iteration before the warning/POST lines); then the common
tail. The Bool result is true when the iteration raised. -/
def MediaUploader.processItem (env : WorkerEnv) (module_id : List Char)
    (entry : List Char × MediaContainer) : List WAct × Bool :=
  let upload_path := entry.1
  let media := entry.2
  let ext := workerExtStep media.mimetype
  if ( "video/").data.isPrefixOf media.mimetype then
    match env.transcode media.file with
    | none => ([WAct.transcode media.file media.framerate], true)
    | some f =>
      MediaUploader.finishItem env module_id upload_path media ext f
        [WAct.transcode media.file media.framerate]
  else MediaUploader.finishItem env module_id upload_path media ext media.file []

/-- The `while True` loop of MediaUploader._worker (src/util.py lines
106-154), run on the finite list of pairs this worker dequeues: no
exception handling surrounds the loop body, so a raised iteration
terminates the loop (the `finally` closes the HTTP session and the task
ends), leaving the rest of the queue to other workers. Returns the
action trace, the entries left unprocessed by this worker, and whether
the worker crashed. -/
def MediaUploader.workerRun (env : WorkerEnv) (module_id : List Char) :
    List (List Char × MediaContainer) →
      List WAct × List (List Char × MediaContainer) × Bool
  | [] => ([], [], false)
  | e :: rest =>
    let r := MediaUploader.processItem env module_id e
    if r.2 then (r.1, rest, true)
    else
      let rr := MediaUploader.workerRun env module_id rest
      (r.1 ++ rr.1, rr.2.1, rr.2.2)

/-- A Recording-shaped session state holding `k` captured images: in
progress, not disposed, the item list containing exactly the `k` image
items in non-decreasing capture-timestamp order, and the mime types
shaped as start sets them (lines 81 and 89 of src/session.py). In the
staged source no such state is actually reachable — Session.__init__
raises AttributeError at line 54 and Session.start at line 82 before
`_in_progress` is ever set, and the capture iteration raises at line
139 before any image append (see Session.new / Session.start /
Session.captureImage and claims C1 and C2) — so this is the
hypothetical post-start state the session-lifecycle claims about
stop/destroy quantify over. -/
def IsRecording (s : Session) (k : Nat) : Prop :=
  s._in_progress = true ∧ s._disposed = false ∧ s._items.length = k
  ∧ (∃ f, s._video_mime_type = some (( "video/").data ++ f))
  ∧ (∃ g, s._image_mime_type = some (( "image/").data ++ g))
  ∧ (∀ it ∈ s._items, ∃ g, it.mimetype = ( "image/").data ++ g)
  ∧ s._items.Pairwise (fun a b => a.captured_at ≤ b.captured_at)

/-- Phases of MediaUploader.dispose (src/util.py lines 92-101):
`running` before dispose is called; `joining` while `await self._q.join()`
is pending; `cancelling` once join returned and before the cancel loop;
`gathering` once every worker task has been sent `cancel()` and
`asyncio.gather` awaits them; `returned` when dispose has returned. -/
inductive DPhase where
  | running
  | joining
  | cancelling
  | gathering
  | returned
  deriving DecidableEq, Repr

/-- Abstract state of the MediaUploader queue and worker pool, counting
what the `asyncio.Queue` counts: `queued` items sitting in `_q`,
`inflight` items a worker has `get`-ed but not yet passed to `task_done`
or dropped, `unfinished` the queue's unfinished-task counter
(incremented by `put_nowait`, decremented only by `task_done` — the
counter `join` waits on), and `alive` worker tasks that have not
terminated. -/
structure UState where
  queued : Nat
  inflight : Nat
  unfinished : Nat
  alive : Nat
  phase : DPhase
  deriving DecidableEq, Repr

/-- Interleaved small steps of the uploader system around dispose
(src/util.py lines 88-154). `put` is `put_nowait` (only before
cancellation has been issued: producers are stopped ahead of dispose and
`join` accounts for any put that lands while it waits); `get` / `task_done`
are the worker loop's dequeue and completion; `crash` is an uncaught
exception in a worker iteration — the item is dropped with no `task_done`
and the worker terminates; `join_complete` is the return of
`await self._q.join()`, enabled exactly when the unfinished counter is
zero; `cancel_issue` is the cancel loop; `worker_exit` a cancelled worker
terminating; `ret` the return of `asyncio.gather`, enabled when every
worker has terminated. -/
inductive UStep : UState → UState → Prop
  | put (q i u a : Nat) (ph : DPhase) (h : ph = DPhase.running ∨ ph = DPhase.joining) :
      UStep ⟨q, i, u, a, ph⟩ ⟨q + 1, i, u + 1, a, ph⟩
  | get (q i u a : Nat) (ph : DPhase) (h : 0 < a) :
      UStep ⟨q + 1, i, u, a, ph⟩ ⟨q, i + 1, u, a, ph⟩
  | task_done (q i u a : Nat) (ph : DPhase) :
      UStep ⟨q, i + 1, u + 1, a, ph⟩ ⟨q, i, u, a, ph⟩
  | crash (q i u a : Nat) (ph : DPhase) :
      UStep ⟨q, i + 1, u, a + 1, ph⟩ ⟨q, i, u, a, ph⟩
  | dispose_start (q i u a : Nat) :
      UStep ⟨q, i, u, a, DPhase.running⟩ ⟨q, i, u, a, DPhase.joining⟩
  | join_complete (q i a : Nat) :
      UStep ⟨q, i, 0, a, DPhase.joining⟩ ⟨q, i, 0, a, DPhase.cancelling⟩
  | cancel_issue (q i u a : Nat) :
      UStep ⟨q, i, u, a, DPhase.cancelling⟩ ⟨q, i, u, a, DPhase.gathering⟩
  | worker_exit (q i u a : Nat) :
      UStep ⟨q, i, u, a + 1, DPhase.gathering⟩ ⟨q, i, u, a, DPhase.gathering⟩
  | ret (q i u : Nat) :
      UStep ⟨q, i, u, 0, DPhase.gathering⟩ ⟨q, i, u, 0, DPhase.returned⟩

/-- States reachable from a freshly constructed MediaUploader with `n`
workers (src/util.py lines 79-86: empty queue, zero unfinished count). -/
def UReach (n : Nat) (u : UState) : Prop :=
  Relation.ReflTransGen UStep ⟨0, 0, 0, n, DPhase.running⟩ u

/-- Invariant of the uploader system: the queue plus in-flight items
never exceed the unfinished counter; once join has returned the counter
is zero; dispose returns only with no live workers. -/
def UInv (u : UState) : Prop :=
  u.queued + u.inflight ≤ u.unfinished
  ∧ ((u.phase = DPhase.cancelling ∨ u.phase = DPhase.gathering
      ∨ u.phase = DPhase.returned) → u.unfinished = 0)
  ∧ (u.phase = DPhase.returned → u.alive = 0)

/-- A sample configured path template, shaped like the one composed in
src/app.py line 58. -/
def fmtW : Nat → String → Nat → List Char → List Char :=
  fun uid sid t ext =>
    (Nat.repr uid).data ++ '/' :: (sid.data ++ '/' :: (strftime14 t ++ ext))

/-- A sample manager holding no session. -/
def mEmpty : SessionManager :=
  { __instance := none, _timeout := 300, _task_watchdog := false,
    _uploader := [], _path_fmt := fmtW }

/-- The Recording-shaped state start would produce on a fresh session
(uid 42, jpeg images, h264 video, clock 100) were the line-82 clock read
not to raise; hypothetical, see Session.start. -/
def sessRec : Session :=
  { _in_progress := true, _disposed := false, _cam := 30, _uid := 42,
    _sid := "s", _raw_stream := 0, _stream_ctr := 1, _items := [],
    _started_at := some 100,
    _video_mime_type := some (( "video/H264").data),
    _image_mime_type := some (( "image/jpeg").data) }

/-- A sample manager holding the started session. -/
def mHeldRec : SessionManager := { mEmpty with __instance := some sessRec }

/-- A sample manager holding a freshly created, never-started session. -/
def mHeldFresh : SessionManager :=
  { mEmpty with __instance := some (Session.fields 30 42 "s") }

/-- A worker environment whose transcoding subprocess fails on every
input and whose POSTs succeed. -/
def envTranscodeFail : WorkerEnv :=
  { transcode := fun _ => none, postFails := fun _ => false }

/-- A worker environment where transcoding rewrites stream 3 to stream 7
and everything succeeds. -/
def envOk : WorkerEnv :=
  { transcode := fun _ => some 7, postFails := fun _ => false }

/-- Structural facts holding of every reachable Recording session:
flags, item count, the shapes of the mime types, and that the captured
items are images listed in non-decreasing capture-timestamp order. -/
theorem isRecording_facts {s : Session} {k : Nat} (h : IsRecording s k) :
    s._in_progress = true ∧ s._disposed = false ∧ s._items.length = k
    ∧ (∃ f, s._video_mime_type = some (( "video/").data ++ f))
    ∧ (∃ g, s._image_mime_type = some (( "image/").data ++ g))
    ∧ (∀ it ∈ s._items, ∃ g, it.mimetype = ( "image/").data ++ g)
    ∧ s._items.Pairwise (fun a b => a.captured_at ≤ b.captured_at) := h

/-- Evaluating Session.stop on any Recording-shaped session state: the
guards pass, the video item is appended last, the session ends disposed,
and the hooks fire in order stopping, disposed. -/
theorem stop_eq_of_recording {s : Session} {k : Nat} (h : IsRecording s k) :
    s.stop = Except.ok
      ({ s with _items := s._items ++ [s.videoItem], _in_progress := false,
                _disposed := true },
       s._items ++ [s.videoItem], [Ev.stopping, Ev.disposed]) := by
  obtain ⟨h1, h2, -⟩ := isRecording_facts h
  simp [Session.stop, Session.disposeCore, h1, h2]

/-- Helper: a list is a Boolean prefix of itself followed by anything. -/
theorem isPrefixOf_append_self (l t : List Char) : l.isPrefixOf (l ++ t) = true := by
  induction l with
  | nil => simp
  | cons a as ih => simp [List.isPrefixOf_cons₂, ih]

/-- Helper: extracting the witness tail from a Boolean prefix test. -/
theorem exists_of_isPrefixOf {l m : List Char} (h : l.isPrefixOf m = true) :
    ∃ t, m = l ++ t := by
  induction l generalizing m with
  | nil => exact ⟨m, rfl⟩
  | cons a as ih =>
    cases m with
    | nil => simp [List.isPrefixOf] at h
    | cons b bs =>
      rw [List.isPrefixOf_cons₂, Bool.and_eq_true, beq_iff_eq] at h
      obtain ⟨rfl, h2⟩ := h
      obtain ⟨t, rfl⟩ := ih h2
      exact ⟨t, rfl⟩

/-- Helper: a string starting with "video/" does not start with
"image/". -/
theorem image_isPrefixOf_video_append (t : List Char) :
    ( "image/").data.isPrefixOf (( "video/").data ++ t) = false := rfl

/-- Helper: a string starting with "image/" does not start with
"video/". -/
theorem video_isPrefixOf_image_append (t : List Char) :
    ( "video/").data.isPrefixOf (( "image/").data ++ t) = false := rfl

theorem uInv_step {a b : UState} (hs : UStep a b) (ha : UInv a) : UInv b := by
  obtain ⟨h1, h2, h3⟩ := ha
  cases hs with
  | put q i u a ph h =>
    dsimp only [UInv] at *
    refine ⟨by omega, ?_, ?_⟩ <;> rcases h with rfl | rfl <;> simp
  | get q i u a ph h =>
    dsimp only [UInv] at *
    exact ⟨by omega, fun hp => h2 hp, fun hp => h3 hp⟩
  | task_done q i u a ph =>
    dsimp only [UInv] at *
    refine ⟨by omega, fun hp => ?_, fun hp => h3 hp⟩
    have := h2 hp
    omega
  | crash q i u a ph =>
    dsimp only [UInv] at *
    refine ⟨by omega, fun hp => h2 hp, fun hp => ?_⟩
    have := h3 hp
    omega
  | dispose_start q i u a =>
    dsimp only [UInv] at *
    exact ⟨h1, by simp, by simp⟩
  | join_complete q i a =>
    dsimp only [UInv] at *
    exact ⟨h1, by simp, by simp⟩
  | cancel_issue q i u a =>
    dsimp only [UInv] at *
    exact ⟨h1, fun _ => h2 (by simp), by simp⟩
  | worker_exit q i u a =>
    dsimp only [UInv] at *
    exact ⟨h1, fun _ => h2 (by simp), by simp⟩
  | ret q i u =>
    dsimp only [UInv] at *
    exact ⟨h1, fun _ => h2 (by simp), fun _ => rfl⟩

theorem uInv_of_reach {n : Nat} {u : UState} (h : UReach n u) : UInv u := by
  induction h with
  | refl => exact ⟨by simp, by simp, by simp⟩
  | tail _ hstep ih => exact uInv_step hstep ih

/-- Helper: the two extension-inference sites compute one function. -/
theorem destroyExtStep_fst (m : List Char) : (destroyExtStep m).1 = workerExtStep m := rfl

/-- Helper: the destroy-side warning fires exactly on the empty
extension. -/
theorem destroyExtStep_snd (m : List Char) :
    (destroyExtStep m).2 = (workerExtStep m).isEmpty := rfl

/-- Helper: dropping the six characters of "image/". -/
theorem drop_six_image (t : List Char) : (( "image/").data ++ t).drop 6 = t := rfl

/-- Helper: extension inference on an image mimetype. -/
theorem workerExtStep_image (t : List Char) :
    workerExtStep (( "image/").data ++ t) =
      (if t.map Char.toLower = ( "jpeg").data then ( ".jpg").data
       else if t.map Char.toLower = ( "png").data then ( ".png").data
       else []) := by
  simp [workerExtStep, isPrefixOf_append_self, drop_six_image]

/-- Helper: extension inference on a video mimetype. -/
theorem workerExtStep_video (t : List Char) :
    workerExtStep (( "video/").data ++ t) = ( ".mp4").data := by
  simp [workerExtStep, image_isPrefixOf_video_append, isPrefixOf_append_self]

/-- Helper: extension inference on any other mimetype. -/
theorem workerExtStep_other {m : List Char}
    (h1 : ( "image/").data.isPrefixOf m = false)
    (h2 : ( "video/").data.isPrefixOf m = false) :
    workerExtStep m = [] := by
  simp [workerExtStep, h1, h2]

/-- C1 (code bug): create's guards are faithful to the claim — it raises
SessionAlreadyExists (the spec's SessionAlreadyExistsError) when a
Session is held, and destroy raises SessionNotExists (the spec's
SessionNotExistsError) when none is held — but the success path never
completes: with `from datetime import datetime` (src/session.py line 2)
Session.__init__ raises AttributeError at line 54, so create on an
empty manager propagates AttributeError, stores nothing, attaches no
hooks and arms no watchdog, contradicting the claim's "constructs and
stores exactly one new Session". -/
theorem create_propagates_init_attribute_error
    (m : SessionManager) (camera uid : Nat) (sid : String) :
    (∀ s0, m.__instance = some s0 →
      m.create camera uid sid = Except.error PyErr.SessionAlreadyExists)
    ∧ (m.__instance = none →
      m.create camera uid sid = Except.error PyErr.AttributeError)
    ∧ (m.__instance = none → ∀ up, m.destroy up = Except.error PyErr.SessionNotExists) := by
  have hz : datetimeCls.hasattr "timezone" = false := by decide
  refine ⟨?_, ?_, ?_⟩
  · intro s0 h
    simp [SessionManager.create, h]
  · intro h
    simp [SessionManager.create, h, Session.new, hz]
  · intro h up
    simp [SessionManager.destroy, h]

/-- Witness for C1 at concrete managers. -/
theorem create_propagates_init_attribute_error_witness :
    (mEmpty.create 30 42 "s" = Except.error PyErr.AttributeError)
    ∧ (mHeldFresh.create 30 42 "s" = Except.error PyErr.SessionAlreadyExists)
    ∧ (mEmpty.destroy true = Except.error PyErr.SessionNotExists) :=
  ⟨(create_propagates_init_attribute_error mEmpty 30 42 "s").2.1 rfl,
   (create_propagates_init_attribute_error mHeldFresh 30 42 "s").1
     (Session.fields 30 42 "s") rfl,
   (create_propagates_init_attribute_error mEmpty 30 42 "s").2.2 rfl true⟩

/-- C4: after dispose completes, the session is flagged disposed, every
subsequent start or stop raises SessionInvalidError, a subsequent
dispose is a no-op returning the identical state and firing no hook,
and the disposed hook fired exactly once in the disposing call. -/
theorem dispose_idempotent (s : Session) (h : s._disposed = false)
    (iv : Nat) (imgf vidf : List Char) (now : Nat) :
    (s.dispose).1._disposed = true
    ∧ (s.dispose).1.start iv imgf vidf now = Except.error PyErr.SessionInvalidError
    ∧ (s.dispose).1.stop = Except.error PyErr.SessionInvalidError
    ∧ (s.dispose).1.dispose = ((s.dispose).1, [])
    ∧ (s.dispose).2.count Ev.disposed = 1 := by
  obtain ⟨ip, d, cam, uid, sid, raw, ctr, items, st, vm, im⟩ := s
  dsimp only at h
  subst h
  cases ip <;>
    simp [Session.dispose, Session.stop, Session.disposeCore, Session.start,
      List.count_cons, List.count_nil]

/-- Witness for C4 at the started sample session. -/
theorem dispose_idempotent_witness :
    (sessRec.dispose).1._disposed = true
    ∧ (sessRec.dispose).1.start 5 ( "jpeg").data ( "h264").data 0 =
        Except.error PyErr.SessionInvalidError
    ∧ (sessRec.dispose).1.stop = Except.error PyErr.SessionInvalidError
    ∧ (sessRec.dispose).1.dispose = ((sessRec.dispose).1, [])
    ∧ (sessRec.dispose).2.count Ev.disposed = 1 :=
  dispose_idempotent sessRec rfl 5 ( "jpeg").data ( "h264").data 0

/-- Supporting lemma (intended behavior on the hypothetical state; see
claim C2 for why no such state is reachable in the staged source): stop
on a Recording-shaped session with k captured images returns exactly
k+1 MediaItems — the k images first, unchanged and in non-decreasing
capture-timestamp order, followed by one item with a video MIME type
last. -/
theorem stop_returns_images_then_video {s : Session} {k : Nat} (h : IsRecording s k) :
    ∃ s1 items evs, s.stop = Except.ok (s1, items, evs)
      ∧ items.length = k + 1
      ∧ items.take k = s._items
      ∧ (∀ it ∈ items.take k, ( "image/").data.isPrefixOf it.mimetype = true)
      ∧ (items.take k).Pairwise (fun a b => a.captured_at ≤ b.captured_at)
      ∧ ∃ last, items.getLast? = some last
          ∧ ( "video/").data.isPrefixOf last.mimetype = true := by
  obtain ⟨-, -, h3, ⟨f, h4⟩, -, h6, h7⟩ := isRecording_facts h
  have htake : (s._items ++ [s.videoItem]).take k = s._items := by
    rw [← h3]
    exact List.take_left _ _
  refine ⟨_, _, _, stop_eq_of_recording h, by simp [h3], htake, ?_, ?_, ?_⟩
  · rw [htake]
    intro it hit
    obtain ⟨g, hg⟩ := h6 it hit
    rw [hg]
    exact isPrefixOf_append_self _ _
  · rw [htake]
    exact h7
  · refine ⟨s.videoItem, List.getLast?_concat _, ?_⟩
    have hv : s.videoItem.mimetype = ( "video/").data ++ f := by
      simp [Session.videoItem, h4]
    rw [hv]
    exact isPrefixOf_append_self _ _

/-- The sample started state is Recording-shaped with no captured
images. -/
theorem isRecording_sessRec : IsRecording sessRec 0 :=
  ⟨rfl, rfl, rfl, ⟨( "H264").data, rfl⟩, ⟨( "jpeg").data, rfl⟩,
   by simp [sessRec], by simp [sessRec]⟩

/-- C2 (code bug): no Recording state with captured images is ever
reachable in the staged source, so stop can never return the claimed
image list. With `from datetime import datetime` (src/session.py line
2), construction raises AttributeError at line 54, start raises at line
82 strictly before `_in_progress` is set, and every capture iteration
raises at line 139 strictly before the image append (killing the
capture task, which catches only CancelledError). The intended
behavior of stop on the hypothetical Recording state is recorded in
stop_returns_images_then_video. -/
theorem recording_state_unreachable :
    Session.new 30 42 "s" = Except.error PyErr.AttributeError
    ∧ (Session.fields 30 42 "s").start 5 ( "jpeg").data ( "h264").data 100 =
        Except.error PyErr.AttributeError
    ∧ sessRec.captureImage 101 = Except.error PyErr.AttributeError :=
  ⟨rfl, rfl, rfl⟩

/-- C3 (code bug): destroy(upload=True) on a manager holding any
Recording session raises AttributeError on the first loop iteration
instead of enqueuing the items and returning the path list. The first
failing read is `item.timestamp` inside the template call at
src/session.py line 244 (MediaContainer's field is named captured_at),
and one line later line 247's `self._uploader.put(upload_path, item)`
would fail the same way, MediaUploader defining no method named put —
only put_items. The stop itself completes first (the session is stopped
and disposed), and the item list is never empty because stop always
appends the video item, so the failing iteration is always reached. -/
theorem destroy_upload_attribute_error (m : SessionManager) (s : Session) (k : Nat)
    (hm : m.__instance = some s) (hr : IsRecording s k) :
    m.destroy true = Except.error PyErr.AttributeError := by
  have hts : MediaContainer.hasattr "timestamp" = false := by decide
  have hstop := stop_eq_of_recording hr
  cases hsi : s._items with
  | nil =>
    simp [SessionManager.destroy, hm, hstop, hsi,
      SessionManager.destroyUploadLoop, hts]
  | cons a rest =>
    simp [SessionManager.destroy, hm, hstop, hsi,
      SessionManager.destroyUploadLoop, hts]

/-- Witness for C3 at the sample held manager. -/
theorem destroy_upload_attribute_error_witness :
    mHeldRec.destroy true = Except.error PyErr.AttributeError :=
  destroy_upload_attribute_error mHeldRec sessRec 0 rfl isRecording_sessRec

/-- C10 counterexample: a held Session need not be recording — by
design create hands back a Session the caller must still start. On a
manager holding such a never-started session, destroy(upload=False)
raises PiCameraNotRecording at the src/session.py line 102 guard
(propagated from Session.stop, before any other line runs) rather than
returning the session with an empty destination-path list. -/
theorem destroy_no_upload_counterexample :
    mHeldFresh.destroy false = Except.error PyErr.PiCameraNotRecording := rfl

/-- C10 (amended): for every manager holding a Recording session,
destroy(upload=False) stops and disposes the session, releases it and
cancels the watchdog, enqueues nothing (the uploader queue is exactly
the one of the input manager) and returns an empty destination-path
list. -/
theorem destroy_no_upload_frame (m : SessionManager) (s : Session) (k : Nat)
    (hm : m.__instance = some s) (hr : IsRecording s k) :
    ∃ s1, m.destroy false =
        Except.ok ({ m with __instance := none, _task_watchdog := false }, s1, [])
      ∧ s1._disposed = true ∧ s1._in_progress = false
      ∧ ({ m with __instance := none, _task_watchdog := false } :
          SessionManager)._uploader = m._uploader := by
  have hstop := stop_eq_of_recording hr
  have hd : m.destroy false = Except.ok ({ m with __instance := none, _task_watchdog := false }, { s with _items := s._items ++ [s.videoItem], _in_progress := false, _disposed := true }, []) := by
    simp [SessionManager.destroy, hm, hstop]
  exact ⟨_, hd, rfl, rfl, rfl⟩

/-- Witness for C10 at the sample held manager. -/
theorem destroy_no_upload_frame_witness :
    ∃ s1, mHeldRec.destroy false =
        Except.ok ({ mHeldRec with __instance := none, _task_watchdog := false }, s1, [])
      ∧ s1._disposed = true ∧ s1._in_progress = false
      ∧ ({ mHeldRec with __instance := none, _task_watchdog := false } :
          SessionManager)._uploader = mHeldRec._uploader :=
  destroy_no_upload_frame mHeldRec sessRec 0 rfl isRecording_sessRec

/-- C5 counterexample: the inference lowercases the image subtype, so
"image/JPEG" — which is neither image/jpeg nor image/png nor a video/*
type — maps to ".jpg" with no warning at both sites, not to the empty
extension with a warning. -/
theorem ext_mapping_counterexample :
    (destroyExtStep ( "image/JPEG").data).1 = ( ".jpg").data
    ∧ workerExtStep ( "image/JPEG").data = ( ".jpg").data
    ∧ ( "image/JPEG").data ≠ ( "image/jpeg").data
    ∧ ( "image/JPEG").data ≠ ( "image/png").data
    ∧ ( "video/").data.isPrefixOf ( "image/JPEG").data = false
    ∧ (destroyExtStep ( "image/JPEG").data).2 = false := by decide

/-- C5 (amended): the destroy path computation and the worker filename
computation use one extension mapping, and it maps image/<sub> to
".jpg" when <sub> lowercases to "jpeg" and to ".png" when it lowercases
to "png", any mimetype beginning with "video/" to ".mp4", and
everything else to the empty extension; the warning fires exactly when
the inferred extension is empty. -/
theorem ext_mapping (m : List Char) :
    (destroyExtStep m).1 = workerExtStep m
    ∧ ((destroyExtStep m).2 = true ↔ workerExtStep m = [])
    ∧ (∀ t, m = ( "image/").data ++ t →
        (t.map Char.toLower = ( "jpeg").data → workerExtStep m = ( ".jpg").data)
        ∧ (t.map Char.toLower = ( "png").data → workerExtStep m = ( ".png").data)
        ∧ (t.map Char.toLower ≠ ( "jpeg").data → t.map Char.toLower ≠ ( "png").data →
            workerExtStep m = []))
    ∧ (∀ t, m = ( "video/").data ++ t → workerExtStep m = ( ".mp4").data)
    ∧ (( "image/").data.isPrefixOf m = false → ( "video/").data.isPrefixOf m = false →
        workerExtStep m = []) := by
  refine ⟨destroyExtStep_fst m, ?_, ?_, ?_, ?_⟩
  · rw [destroyExtStep_snd]
    exact List.isEmpty_iff
  · rintro t rfl
    rw [workerExtStep_image]
    refine ⟨fun hj => by simp [hj], fun hp => ?_, fun hj hp => by simp [hj, hp]⟩
    by_cases hj : t.map Char.toLower = ( "jpeg").data
    · exact absurd (hp ▸ hj) (by decide)
    · simp [hj, hp]
  · rintro t rfl
    exact workerExtStep_video t
  · exact fun h1 h2 => workerExtStep_other h1 h2

/-- Witness for C5 on the three mapping regimes. -/
theorem ext_mapping_witness :
    workerExtStep ( "image/jpeg").data = ( ".jpg").data
    ∧ workerExtStep ( "image/png").data = ( ".png").data
    ∧ workerExtStep ( "video/H264").data = ( ".mp4").data
    ∧ workerExtStep ( "application/pdf").data = [] :=
  ⟨((ext_mapping ( "image/jpeg").data).2.2.1 ( "jpeg").data (by decide)).1 (by decide),
   ((ext_mapping ( "image/png").data).2.2.1 ( "png").data (by decide)).2.1 (by decide),
   (ext_mapping ( "video/H264").data).2.2.2.1 ( "H264").data (by decide),
   (ext_mapping ( "application/pdf").data).2.2.2.2 (by decide) (by decide)⟩

/-- Helper: closed form of finishItem as an action list plus the
raised-flag. -/
theorem finishItem_eq (env : WorkerEnv) (mid up : List Char) (media : MediaContainer)
    (ext : List Char) (file : Nat) (acts : List WAct) :
    MediaUploader.finishItem env mid up media ext file acts =
      (acts ++ (if ext.isEmpty then [WAct.warnExt] else [])
        ++ [WAct.post ('/' :: pathJoin up (MediaUploader.make_filename mid media.captured_at ext)) file media.mimetype (MediaUploader.make_filename mid media.captured_at ext)]
        ++ (if env.postFails ('/' :: pathJoin up (MediaUploader.make_filename mid media.captured_at ext)) then [] else [WAct.task_done]),
       env.postFails ('/' :: pathJoin up (MediaUploader.make_filename mid media.captured_at ext))) := by
  by_cases hp : env.postFails ('/' :: pathJoin up (MediaUploader.make_filename mid media.captured_at ext)) <;>
    simp [MediaUploader.finishItem, hp]

/-- C9: for a dequeued video item whose transcoding succeeds, the worker
iteration is exactly: invoke the transcoder on the raw payload with the
item's frame rate, then POST the transformed payload (then task_done
when the POST succeeds) — the transcode strictly precedes the POST and
the POST carries the transcoder's output; for a non-video item there is
no transcode action and the POST carries the original payload
untransformed. -/
theorem worker_transcode_order (env : WorkerEnv) (mid : List Char)
    (e : List Char × MediaContainer) (f : Nat) :
    (( "video/").data.isPrefixOf e.2.mimetype = true →
      env.transcode e.2.file = some f →
      MediaUploader.processItem env mid e =
        ([WAct.transcode e.2.file e.2.framerate,
          WAct.post ('/' :: pathJoin e.1 (MediaUploader.make_filename mid e.2.captured_at ( ".mp4").data)) f e.2.mimetype (MediaUploader.make_filename mid e.2.captured_at ( ".mp4").data)]
          ++ (if env.postFails ('/' :: pathJoin e.1 (MediaUploader.make_filename mid e.2.captured_at ( ".mp4").data)) then [] else [WAct.task_done]),
         env.postFails ('/' :: pathJoin e.1 (MediaUploader.make_filename mid e.2.captured_at ( ".mp4").data))))
    ∧ (( "video/").data.isPrefixOf e.2.mimetype = false →
        MediaUploader.processItem env mid e =
          ((if (workerExtStep e.2.mimetype).isEmpty then [WAct.warnExt] else [])
            ++ [WAct.post ('/' :: pathJoin e.1 (MediaUploader.make_filename mid e.2.captured_at (workerExtStep e.2.mimetype))) e.2.file e.2.mimetype (MediaUploader.make_filename mid e.2.captured_at (workerExtStep e.2.mimetype))]
            ++ (if env.postFails ('/' :: pathJoin e.1 (MediaUploader.make_filename mid e.2.captured_at (workerExtStep e.2.mimetype))) then [] else [WAct.task_done]),
           env.postFails ('/' :: pathJoin e.1 (MediaUploader.make_filename mid e.2.captured_at (workerExtStep e.2.mimetype))))) := by
  constructor
  · intro h ht
    obtain ⟨t, hmeq⟩ := exists_of_isPrefixOf h
    have hext : workerExtStep e.2.mimetype = ( ".mp4").data := by
      rw [hmeq]
      exact workerExtStep_video t
    rw [MediaUploader.processItem]
    simp only [h, if_true, ht, hext, finishItem_eq]
    simp
  · intro h
    rw [MediaUploader.processItem]
    simp only [h, Bool.false_eq_true, if_false, finishItem_eq]
    simp

/-- Witness for C9: a video item under the successful environment and
an image item. -/
theorem worker_transcode_order_witness :
    MediaUploader.processItem envOk ( "01").data (( "42/s").data, ⟨3, ( "video/H264").data, 5, some 30⟩) =
      ([WAct.transcode 3 (some 30),
        WAct.post ('/' :: pathJoin ( "42/s").data (MediaUploader.make_filename ( "01").data 5 ( ".mp4").data)) 7 ( "video/H264").data (MediaUploader.make_filename ( "01").data 5 ( ".mp4").data),
        WAct.task_done], false)
    ∧ MediaUploader.processItem envOk ( "01").data (( "42/s").data, ⟨4, ( "image/jpeg").data, 6, none⟩) =
      ([WAct.post ('/' :: pathJoin ( "42/s").data (MediaUploader.make_filename ( "01").data 6 ( ".jpg").data)) 4 ( "image/jpeg").data (MediaUploader.make_filename ( "01").data 6 ( ".jpg").data),
        WAct.task_done], false) := by
  constructor
  · have h := (worker_transcode_order envOk ( "01").data (( "42/s").data, ⟨3, ( "video/H264").data, 5, some 30⟩) 7).1 (by decide) rfl
    simpa [envOk] using h
  · have h := (worker_transcode_order envOk ( "01").data (( "42/s").data, ⟨4, ( "image/jpeg").data, 6, none⟩) 0).2 (by decide)
    simpa [envOk, workerExtStep_image] using h

/-- C6 (code bug): the worker loop has no per-iteration exception
handling (src/util.py lines 106-154: the only try/finally closes the
HTTP session), so a transcoding failure while processing video item X
terminates that worker's loop: the item is dropped with no logging and
no task_done, the worker task ends, and the following item Y is left
unprocessed by that worker — under a single live worker Y is never
uploaded, and in every case the missed task_done leaves the queue's
join() pending forever. -/
theorem worker_crash_on_transcode_failure :
    MediaUploader.workerRun envTranscodeFail ( "01").data
      [(( "42/s").data, ⟨5, ( "video/H264").data, 10, some 25⟩),
       (( "42/s").data, ⟨6, ( "image/jpeg").data, 11, none⟩)] =
      ([WAct.transcode 5 (some 25)],
       [(( "42/s").data, ⟨6, ( "image/jpeg").data, 11, none⟩)], true) := by decide

/-- C7: whenever MediaUploader.dispose has returned, every previously
enqueued item has been accounted for by task_done (the unfinished
counter is zero, hence the queue and the in-flight set are empty) and
every worker task has terminated; moreover cancellation is only ever
issued in a phase the system can enter only with the queue fully
drained, so no in-flight upload is dropped by the cancellation. -/
theorem uploader_dispose_drains_before_cancel (n : Nat) (u : UState) (h : UReach n u) :
    ((u.phase = DPhase.cancelling ∨ u.phase = DPhase.gathering
        ∨ u.phase = DPhase.returned) →
      u.unfinished = 0 ∧ u.queued = 0 ∧ u.inflight = 0)
    ∧ (u.phase = DPhase.returned → u.alive = 0) := by
  obtain ⟨h1, h2, h3⟩ := uInv_of_reach h
  refine ⟨fun hp => ?_, h3⟩
  have := h2 hp
  omega

/-- Witness for C7: a completed dispose run with one worker. -/
theorem uploader_dispose_drains_before_cancel_witness :
    ((UState.phase ⟨0, 0, 0, 0, DPhase.returned⟩ = DPhase.cancelling
        ∨ UState.phase ⟨0, 0, 0, 0, DPhase.returned⟩ = DPhase.gathering
        ∨ UState.phase ⟨0, 0, 0, 0, DPhase.returned⟩ = DPhase.returned) →
      UState.unfinished ⟨0, 0, 0, 0, DPhase.returned⟩ = 0
        ∧ UState.queued ⟨0, 0, 0, 0, DPhase.returned⟩ = 0
        ∧ UState.inflight ⟨0, 0, 0, 0, DPhase.returned⟩ = 0)
    ∧ (UState.phase ⟨0, 0, 0, 0, DPhase.returned⟩ = DPhase.returned →
        UState.alive ⟨0, 0, 0, 0, DPhase.returned⟩ = 0) :=
  uploader_dispose_drains_before_cancel 1 ⟨0, 0, 0, 0, DPhase.returned⟩
    (Relation.ReflTransGen.tail
      (Relation.ReflTransGen.tail
        (Relation.ReflTransGen.tail
          (Relation.ReflTransGen.tail
            (Relation.ReflTransGen.tail Relation.ReflTransGen.refl
              (UStep.dispose_start 0 0 0 1))
            (UStep.join_complete 0 0 1))
          (UStep.cancel_issue 0 0 0 1))
        (UStep.worker_exit 0 0 0 0))
      (UStep.ret 0 0 0))

